import Mathlib

/-
Verification of the i-repairadmin admin dashboard (three React/Firestore
pages: repairs.tsx, freelance.tsx and the appointments page) against its
natural-language specification.  The JavaScript fragments the claims are
about — the denormalization resolver, the client-side search/status filter,
the freelance subscription filter, the soft-delete action, and the
subscription error callbacks — are shallowly embedded below.  JavaScript
`undefined` is modelled by `Option`, falsy-string defaulting (`a || b`) by
`orStr` (the empty string is falsy), falsy-number defaulting by `orInt`
(zero is falsy), and `String.prototype.includes` / `toLowerCase` by
`strIncludes` / `jsToLower`.
-/

/-- JavaScript string defaulting `a || d`: `undefined` and `""` are falsy. -/
def orStr : Option String → String → String
  | some s, d => if s = "" then d else s
  | none, d => d

/-- JavaScript number defaulting `a || d`: `undefined` and `0` are falsy. -/
def orInt : Option Int → Int → Int
  | some n, d => if n = 0 then d else n
  | none, d => d

/-- One step of the substring scan: is `needle` a prefix of `hay`? -/
def prefChars : List Char → List Char → Bool
  | [], _ => true
  | _ :: _, [] => false
  | a :: as, b :: bs => a == b && prefChars as bs

/-- Substring occurrence on character lists (`hay` first, `needle` second). -/
def hasSubstr : List Char → List Char → Bool
  | [], needle => prefChars needle []
  | h :: t, needle => prefChars needle (h :: t) || hasSubstr t needle

/-- JavaScript `hay.includes(needle)`. -/
def strIncludes (hay needle : String) : Bool :=
  hasSubstr hay.toList needle.toList

/-- JavaScript `s.toLowerCase()` (ASCII case folding). -/
def jsToLower (s : String) : String :=
  String.mk (s.toList.map Char.toLower)

/-- The `userInfo` legacy display snapshot of a repair/appointment record. -/
structure UserInfo where
  username : Option String := none
  email : Option String := none
  phone : Option String := none
deriving DecidableEq, Repr

/-- The `userDetails` display snapshot of a repair/appointment record. -/
structure UserDetails where
  name : Option String := none
  username : Option String := none
  email : Option String := none
  phone : Option String := none
deriving DecidableEq, Repr

/-- The `technicianInfo` legacy display snapshot. -/
structure TechInfo where
  username : Option String := none
  email : Option String := none
  phone : Option String := none
deriving DecidableEq, Repr

/-- The `technicianDetails` display snapshot. -/
structure TechDetails where
  name : Option String := none
  username : Option String := none
  email : Option String := none
  phone : Option String := none
  rating : Option Int := none
  experience : Option String := none
  shopName : Option String := none
  distance : Option Int := none
deriving DecidableEq, Repr

/-- The embedded `diagnosisData` snapshot. -/
structure DiagnosisData where
  category : Option String := none
  brand : Option String := none
  model : Option String := none
  issue : Option String := none
  issueDescription : Option String := none
  diagnosis : Option String := none
deriving DecidableEq, Repr

/-- The `status` record of an appointment/repair (`status.global`). -/
structure StatusRec where
  global : String := ""
deriving DecidableEq, Repr

/-- An appointment/repair record as handled by repairs.tsx and the
appointments page (the fields the resolver and the filters access). -/
structure AppointmentRec where
  id : String := ""
  userId : String := ""
  technicianId : String := ""
  deviceType : Option String := none
  issue : Option String := none
  status : Option StatusRec := none
  diagnosisData : Option DiagnosisData := none
  userInfo : Option UserInfo := none
  userDetails : Option UserDetails := none
  technicianInfo : Option TechInfo := none
  technicianDetails : Option TechDetails := none
deriving DecidableEq, Repr

/-- A document of the `users` collection as read by `getDoc`. -/
structure UserDoc where
  username : Option String := none
  name : Option String := none
  email : Option String := none
  phone : Option String := none
deriving DecidableEq, Repr

/-- A document of the `technicians` collection as read by `getDoc`. -/
structure TechDoc where
  username : Option String := none
  name : Option String := none
  fullName : Option String := none
  email : Option String := none
  phone : Option String := none
  averageRating : Option Int := none
  rating : Option Int := none
  experience : Option String := none
  shopName : Option String := none
  distance : Option Int := none
deriving DecidableEq, Repr

/-- Outcome of a Firestore point read: the document exists, the document
does not exist (`!doc.exists()`), or the read throws. -/
inductive FetchResult (α : Type) where
  | found : α → FetchResult α
  | absent : FetchResult α
  | failed : FetchResult α
deriving DecidableEq, Repr

/-- Whether a point read returned an existing document. -/
def isFound {α : Type} : FetchResult α → Bool
  | FetchResult.found _ => true
  | _ => false

/-- The remote document store visible to the resolvers: point reads of the
`users` and `technicians` collections. -/
structure Store where
  users : String → FetchResult UserDoc
  technicians : String → FetchResult TechDoc

namespace Repairs

/-- The `userData` local of fetchUserAndTechnicianDetails in
src/src/pages/repairs.tsx (lines 109-122): `null` unless the record embeds
neither `userInfo` nor `userDetails`, has a truthy `userId`, and the point
read finds the document; a failed read is swallowed by the inner catch. -/
def fetchedUserData (store : Store) (a : AppointmentRec) : Option UserDoc :=
  if a.userInfo.isNone && a.userDetails.isNone && (a.userId != "") then
    match store.users a.userId with
    | FetchResult.found d => some d
    | _ => none
  else none

/-- The `technicianData` local (repairs.tsx lines 110-134), symmetric to
`fetchedUserData` over the `technicians` collection. -/
def fetchedTechnicianData (store : Store) (a : AppointmentRec) : Option TechDoc :=
  if a.technicianInfo.isNone && a.technicianDetails.isNone && (a.technicianId != "") then
    match store.technicians a.technicianId with
    | FetchResult.found d => some d
    | _ => none
  else none

/-- The returned merge of fetchUserAndTechnicianDetails (repairs.tsx lines
136-161).  Each conditional reproduces the JavaScript parse of
`appointment.userInfo || userData ? {...} : undefined`, which groups as
`(appointment.userInfo || userData) ? {...} : undefined`, with the branch
object built from `userData` alone. -/
def mergeResolved (a : AppointmentRec) (userData : Option UserDoc)
    (technicianData : Option TechDoc) : AppointmentRec :=
  { a with
    userInfo :=
      if a.userInfo.isSome || userData.isSome then
        some { username := some (orStr (userData.bind UserDoc.username)
                 (orStr (userData.bind UserDoc.name) "Unknown"))
             , email := some (orStr (userData.bind UserDoc.email) "N/A")
             , phone := some (orStr (userData.bind UserDoc.phone) "N/A") }
      else none
    technicianInfo :=
      if a.technicianInfo.isSome || technicianData.isSome then
        some { username := some (orStr (technicianData.bind TechDoc.username)
                 (orStr (technicianData.bind TechDoc.name)
                   (orStr (technicianData.bind TechDoc.fullName) "Unknown")))
             , email := some (orStr (technicianData.bind TechDoc.email) "N/A")
             , phone := some (orStr (technicianData.bind TechDoc.phone) "N/A") }
      else none
    userDetails :=
      if a.userDetails.isSome || userData.isSome then
        some { name := some (orStr (userData.bind UserDoc.username)
                 (orStr (userData.bind UserDoc.name) "Unknown"))
             , username := none
             , email := some (orStr (userData.bind UserDoc.email) "N/A")
             , phone := some (orStr (userData.bind UserDoc.phone) "N/A") }
      else none
    technicianDetails :=
      if a.technicianDetails.isSome || technicianData.isSome then
        some { name := some (orStr (technicianData.bind TechDoc.username)
                 (orStr (technicianData.bind TechDoc.name)
                   (orStr (technicianData.bind TechDoc.fullName) "Unknown")))
             , username := none
             , email := none
             , phone := some (orStr (technicianData.bind TechDoc.phone) "N/A")
             , rating := some (orInt (technicianData.bind TechDoc.averageRating)
                 (orInt (technicianData.bind TechDoc.rating) 0))
             , experience := some (orStr (technicianData.bind TechDoc.experience) "N/A")
             , shopName := some (orStr (technicianData.bind TechDoc.shopName) "N/A")
             , distance := some (orInt (technicianData.bind TechDoc.distance) 0) }
      else none }

/-- fetchUserAndTechnicianDetails of src/src/pages/repairs.tsx (lines
107-166): conditional point reads followed by the merge.  The outer
try/catch never fires because every fallible read is already caught. -/
def fetchUserAndTechnicianDetails (store : Store) (a : AppointmentRec) : AppointmentRec :=
  mergeResolved a (fetchedUserData store a) (fetchedTechnicianData store a)

end Repairs

namespace Appointments

/-- The type of the `userInfo` / `technicianInfo` locals of the appointments
page resolver: either an embedded snapshot (which may expose `username`,
`name`, `email`, `phone`) or an object built from a fetched document. -/
structure AnyInfo where
  username : Option String := none
  name : Option String := none
  email : Option String := none
  phone : Option String := none
deriving DecidableEq, Repr

/-- View of an embedded `userInfo` snapshot as an `AnyInfo`. -/
def ofUserInfo (u : UserInfo) : AnyInfo :=
  { username := u.username, name := none, email := u.email, phone := u.phone }

/-- View of an embedded `userDetails` snapshot as an `AnyInfo`. -/
def ofUserDetails (d : UserDetails) : AnyInfo :=
  { username := d.username, name := d.name, email := d.email, phone := d.phone }

/-- View of an embedded `technicianInfo` snapshot as an `AnyInfo`. -/
def ofTechInfo (t : TechInfo) : AnyInfo :=
  { username := t.username, name := none, email := t.email, phone := t.phone }

/-- View of an embedded `technicianDetails` snapshot as an `AnyInfo`. -/
def ofTechDetails (t : TechDetails) : AnyInfo :=
  { username := t.username, name := t.name, email := t.email, phone := t.phone }

/-- The initial `userInfo` local of the appointments resolver (line 111):
`appointment.userInfo || appointment.userDetails`. -/
def embeddedUser (a : AppointmentRec) : Option AnyInfo :=
  (a.userInfo.map ofUserInfo).orElse (fun _ => a.userDetails.map ofUserDetails)

/-- The initial `technicianInfo` local (line 112):
`appointment.technicianInfo || appointment.technicianDetails`. -/
def embeddedTechnician (a : AppointmentRec) : Option AnyInfo :=
  (a.technicianInfo.map ofTechInfo).orElse (fun _ => a.technicianDetails.map ofTechDetails)

/-- The `userInfo` local after the conditional fetch (lines 115-129): a
fetch only when no snapshot is embedded and the id is truthy; a failed or
empty read leaves the local undefined. -/
def userLocal (store : Store) (a : AppointmentRec) : Option AnyInfo :=
  if (embeddedUser a).isNone && (a.userId != "") then
    match store.users a.userId with
    | FetchResult.found ud =>
        some { username := some (orStr ud.username (orStr ud.name "Unknown"))
             , name := none
             , email := some (orStr ud.email "N/A")
             , phone := some (orStr ud.phone "N/A") }
    | _ => none
  else embeddedUser a

/-- The `technicianInfo` local after the conditional fetch (lines 132-146). -/
def technicianLocal (store : Store) (a : AppointmentRec) : Option AnyInfo :=
  if (embeddedTechnician a).isNone && (a.technicianId != "") then
    match store.technicians a.technicianId with
    | FetchResult.found td =>
        some { username := some (orStr td.username (orStr td.name "Unknown"))
             , name := none
             , email := some (orStr td.email "N/A")
             , phone := some (orStr td.phone "N/A") }
    | _ => none
  else embeddedTechnician a

/-- fetchUserAndTechnicianDetails of the appointments page (lines 109-165):
the returned record normalizes the two locals into `userInfo` /
`technicianInfo` with "Unknown"/"N/A" defaults per field, or leaves them
undefined when the respective local is undefined. -/
def fetchUserAndTechnicianDetails (store : Store) (a : AppointmentRec) : AppointmentRec :=
  { a with
    userInfo := (userLocal store a).map (fun ui =>
      { username := some (orStr ui.username (orStr ui.name "Unknown"))
      , email := some (orStr ui.email "N/A")
      , phone := some (orStr ui.phone "N/A") })
    technicianInfo := (technicianLocal store a).map (fun ti =>
      { username := some (orStr ti.username (orStr ti.name "Unknown"))
      , email := some (orStr ti.email "N/A")
      , phone := some (orStr ti.phone "N/A") }) }

end Appointments

/-- JavaScript `repair.status?.global === f`. -/
def statusGlobalIs (a : AppointmentRec) (f : String) : Bool :=
  match a.status with
  | some st => st.global == f
  | none => false

namespace Repairs

/-- One optional-chained search clause of filteredRepairs, e.g.
`repair.userInfo?.username?.toLowerCase()?.includes(searchLower)`:
an absent field yields `undefined`, which is falsy. -/
def optIncludes (o : Option String) (needle : String) : Bool :=
  match o with
  | some v => strIncludes (jsToLower v) needle
  | none => false

/-- One guarded search clause of filteredRepairs, e.g.
`(repair.deviceType && repair.deviceType.toLowerCase().includes(searchLower))`:
an absent or empty field short-circuits to falsy. -/
def guardIncludes (o : Option String) (needle : String) : Bool :=
  match o with
  | some v => (v != "") && strIncludes (jsToLower v) needle
  | none => false

/-- The predicate of filteredRepairs (repairs.tsx lines 210-231): a
ten-clause case-insensitive substring search, then an exact status match
unless the type filter is the sentinel "all". -/
def repairMatches (searchTerm typeFilter : String) (r : AppointmentRec) : Bool :=
  let searchLower := jsToLower searchTerm
  let matchesSearch :=
    optIncludes (r.userInfo.bind UserInfo.username) searchLower
    || optIncludes (r.userDetails.bind UserDetails.name) searchLower
    || optIncludes (r.technicianInfo.bind TechInfo.username) searchLower
    || optIncludes (r.technicianDetails.bind TechDetails.name) searchLower
    || guardIncludes r.deviceType searchLower
    || guardIncludes (r.diagnosisData.bind DiagnosisData.category) searchLower
    || guardIncludes (r.diagnosisData.bind DiagnosisData.brand) searchLower
    || guardIncludes r.issue searchLower
    || guardIncludes (r.diagnosisData.bind DiagnosisData.issue) searchLower
    || guardIncludes (r.diagnosisData.bind DiagnosisData.issueDescription) searchLower
  if typeFilter == "all" then matchesSearch
  else matchesSearch && statusGlobalIs r typeFilter

/-- filteredRepairs (repairs.tsx lines 210-231): `repairs.filter(...)`. -/
def filteredRepairs (repairs : List AppointmentRec) (searchTerm typeFilter : String) :
    List AppointmentRec :=
  repairs.filter (repairMatches searchTerm typeFilter)

/-- The user name rendered by the repairs card and the detail modal
(repairs.tsx lines 332 and 522):
`repair.userInfo?.username || repair.userDetails?.name || "Unknown"`. -/
def displayedUserName (r : AppointmentRec) : String :=
  orStr (r.userInfo.bind UserInfo.username)
    (orStr (r.userDetails.bind UserDetails.name) "Unknown")

/-- The user email rendered by the detail modal (repairs.tsx line 528):
`selectedRepair.userInfo?.email || selectedRepair.userDetails?.email || "N/A"`. -/
def displayedUserEmail (r : AppointmentRec) : String :=
  orStr (r.userInfo.bind UserInfo.email)
    (orStr (r.userDetails.bind UserDetails.email) "N/A")

/-- The technician name rendered by the repairs card (repairs.tsx line 340). -/
def displayedTechnicianName (r : AppointmentRec) : String :=
  orStr (r.technicianInfo.bind TechInfo.username)
    (orStr (r.technicianDetails.bind TechDetails.name) "Unknown")

/-- One resolution pass of the repairs subscription callback (repairs.tsx
lines 176-194): the empty snapshot stores `[]`, otherwise every record of
the snapshot is resolved and the result is stored unconditionally — the
code carries no tag identifying which snapshot a pass belongs to. -/
def completeResolutionPass (store : Store) (snap : List AppointmentRec) :
    List AppointmentRec :=
  if snap.isEmpty then [] else snap.map (fetchUserAndTechnicianDetails store)

/-- The stored record set after the resolution passes of the given
snapshots complete in the given order: each completing pass overwrites the
stored set with its own resolved snapshot (`setRepairs`), independently of
the order in which the snapshots were delivered. -/
def runResolutionPasses (store : Store) (init : List AppointmentRec)
    (completions : List (List AppointmentRec)) : List AppointmentRec :=
  completions.foldl (fun _ snap => completeResolutionPass store snap) init

end Repairs

namespace Appointments

/-- The predicate of filteredAppointments (appointments page lines
202-234): names default to "Unknown" and device/issue to "" before the
case-insensitive substring match; status is exact-match with sentinel "all". -/
def appointmentMatches (searchTerm statusFilter : String) (a : AppointmentRec) : Bool :=
  let searchLower := jsToLower searchTerm
  let userName := orStr (a.userInfo.bind UserInfo.username)
    (orStr (a.userDetails.bind UserDetails.name)
      (orStr (a.userDetails.bind UserDetails.username) "Unknown"))
  let techName := orStr (a.technicianInfo.bind TechInfo.username)
    (orStr (a.technicianDetails.bind TechDetails.name)
      (orStr (a.technicianDetails.bind TechDetails.username) "Unknown"))
  let devType := orStr a.deviceType
    (orStr (a.diagnosisData.bind DiagnosisData.category)
      (orStr (a.diagnosisData.bind DiagnosisData.brand) ""))
  let issueText := orStr a.issue
    (orStr (a.diagnosisData.bind DiagnosisData.issue)
      (orStr (a.diagnosisData.bind DiagnosisData.diagnosis) ""))
  let matchesSearch :=
    strIncludes (jsToLower userName) searchLower
    || strIncludes (jsToLower techName) searchLower
    || strIncludes (jsToLower devType) searchLower
    || strIncludes (jsToLower issueText) searchLower
  let matchesStatus := (statusFilter == "all") || statusGlobalIs a statusFilter
  matchesSearch && matchesStatus

/-- filteredAppointments (appointments page lines 202-234). -/
def filteredAppointments (l : List AppointmentRec) (searchTerm statusFilter : String) :
    List AppointmentRec :=
  l.filter (appointmentMatches searchTerm statusFilter)

end Appointments

/-- A technician document as handled by freelance.tsx (the fields its
subscription filter accesses). -/
structure FreelanceTech where
  uid : String := ""
  username : Option String := none
  status : Option String := none
  hasShop : Option Bool := none
  isDeleted : Option Bool := none
deriving DecidableEq, Repr

namespace Freelance

/-- The lower-cased status local of the freelance filter (freelance.tsx
line 57): `typeof t.status === "string" ? t.status.toLowerCase() : ""`. -/
def statusLower (t : FreelanceTech) : String :=
  match t.status with
  | some s => jsToLower s
  | none => ""

/-- The freelance subscription filter predicate (freelance.tsx line 58):
`!t.isDeleted && status === "approved" && !t.hasShop`. -/
def isFreelanceTech (t : FreelanceTech) : Bool :=
  !(t.isDeleted == some true) && (statusLower t == "approved")
    && !(t.hasShop == some true)

/-- The freelance view model (freelance.tsx lines 56-59): `docs.filter(...)`. -/
def freelanceTechs (docs : List FreelanceTech) : List FreelanceTech :=
  docs.filter isFreelanceTech

end Freelance

/-- A dynamic field value of a technician document. -/
inductive JsValue where
  | str : String → JsValue
  | boolean : Bool → JsValue
  | num : Int → JsValue
deriving DecidableEq, Repr

/-- A technician document as stored: a map from field name to value. -/
abbrev TechDocMap := String → Option JsValue

/-- The `technicians` collection as stored: a map from document id. -/
abbrev TechColl := String → Option TechDocMap

/-- Reading a field of a possibly-absent document. -/
def docField : Option TechDocMap → String → Option JsValue
  | some d, k => d k
  | none, _ => none

/-- Firestore `setDoc(..., fields, { merge: true })`: the named fields of
the target document are set, every unnamed field is preserved, any other
document is untouched, and a missing target document is created. -/
def mergeWrite (coll : TechColl) (id : String) (fields : String → Option JsValue) :
    TechColl :=
  fun i =>
    if i = id then
      some (fun k =>
        match fields k with
        | some v => some v
        | none => docField (coll i) k)
    else coll i

/-- The payload of the soft-delete write (freelance.tsx lines 99-103):
`{ isDeleted: true, deletedAt: new Date().toISOString(), deletedBy: "admin" }`. -/
def softDeleteFields (now : String) : String → Option JsValue :=
  fun k =>
    if k = "isDeleted" then some (JsValue.boolean true)
    else if k = "deletedAt" then some (JsValue.str now)
    else if k = "deletedBy" then some (JsValue.str "admin")
    else none

/-- The state of the freelance page relevant to handleDelete: the remote
`technicians` collection, the current selection, and whether the failure
alert has been shown. -/
structure FreelanceViewState where
  techColl : TechColl
  selected : Option String
  errorShown : Bool

namespace Freelance

/-- handleDelete of freelance.tsx (lines 88-110): return early on a falsy
uid; await the confirmation gate; on confirm, issue the merge-write and on
its success clear the selection (`setSelected(null)`); if the write throws,
keep the selection and show the failure alert. -/
def handleDelete (confirmOk writeOk : Bool) (uid now : String)
    (s : FreelanceViewState) : FreelanceViewState :=
  if uid = "" then s
  else if confirmOk then
    if writeOk then
      { s with techColl := mergeWrite s.techColl uid (softDeleteFields now)
             , selected := none }
    else { s with errorShown := true }
  else s

end Freelance

/-- The subscription-facing state of a list view: the stored record list,
the loading flag, and the inline error message (the freelance and repairs
pages have no error state variable; the field stays untouched there). -/
structure ViewState (α : Type) where
  list : List α
  loading : Bool
  error : Option String
deriving DecidableEq, Repr

/-- What a list view renders: the loading spinner, an inline error with a
retry control, or the record list. -/
inductive RenderedView (α : Type) where
  | spinner : RenderedView α
  | errorWithRetry : String → RenderedView α
  | listView : List α → RenderedView α
deriving DecidableEq, Repr

namespace Appointments

/-- The appointments onSnapshot error callback (lines 191-195):
`setError("Failed to connect to database"); setLoading(false)`. -/
def onSnapshotError (s : ViewState AppointmentRec) : ViewState AppointmentRec :=
  { s with error := some "Failed to connect to database", loading := false }

/-- The appointments render path (lines 249-280): spinner while loading,
then the error state with its Retry button, then the filtered grid. -/
def render (s : ViewState AppointmentRec) (term status : String) :
    RenderedView AppointmentRec :=
  if s.loading then RenderedView.spinner
  else
    match s.error with
    | some e => RenderedView.errorWithRetry e
    | none => RenderedView.listView (filteredAppointments s.list term status)

end Appointments

namespace Repairs

/-- The repairs onSnapshot error callback (repairs.tsx lines 201-205):
only `setLoading(false)` — the in-code comment reads "Don't set error
state, just log it". -/
def onSnapshotError (s : ViewState AppointmentRec) : ViewState AppointmentRec :=
  { s with loading := false }

/-- The repairs render path (repairs.tsx lines 250-396): spinner while
loading, otherwise the filtered grid; there is no error branch. -/
def render (s : ViewState AppointmentRec) (term typeFilter : String) :
    RenderedView AppointmentRec :=
  if s.loading then RenderedView.spinner
  else RenderedView.listView (filteredRepairs s.list term typeFilter)

end Repairs

namespace Freelance

/-- The freelance onSnapshot error callback (freelance.tsx lines 64-67):
only `setLoading(false)`; the page has no error state variable at all. -/
def onSnapshotError (s : ViewState FreelanceTech) : ViewState FreelanceTech :=
  { s with loading := false }

/-- The freelance render path (freelance.tsx lines 120-136): loading
message, empty-state message, or the cards; there is no error branch. -/
def render (s : ViewState FreelanceTech) : RenderedView FreelanceTech :=
  if s.loading then RenderedView.spinner
  else RenderedView.listView s.list

end Freelance

/-- A store in which every point read finds no document. -/
def storeEmpty : Store :=
  { users := fun _ => FetchResult.absent, technicians := fun _ => FetchResult.absent }

/-- A store in which every user read throws and every technician read finds
no document; its `technicians` component is the same function as in
`storeEmpty`. -/
def storeUsersFail : Store :=
  { users := fun _ => FetchResult.failed, technicians := fun _ => FetchResult.absent }

/-- A record that already embeds a complete `userInfo` display snapshot. -/
def rAlice : AppointmentRec :=
  { userId := "u1"
  , userInfo := some { username := some "alice"
                     , email := some "alice@example.com"
                     , phone := some "0917" } }

/-- A record referencing a user and a technician with no embedded snapshot. -/
def rNoInfo : AppointmentRec := { userId := "u1", technicianId := "t1" }

/-- A record on which every searchable display field is absent. -/
def aBare : AppointmentRec := {}

/-- A record with `deviceType` absent and `diagnosisData.brand = "iPhone"`. -/
def rIphone : AppointmentRec := { diagnosisData := some { brand := some "iPhone" } }

/-- A record whose resolution is the identity (no references, one
searchable field present). -/
def rA : AppointmentRec := { deviceType := some "phone" }

/-- Technician with status "Approved" and no shop. -/
def ftApprovedNoShop : FreelanceTech := { uid := "a", status := some "Approved" }

/-- Technician with status "approved" who has a shop. -/
def ftApprovedShop : FreelanceTech :=
  { uid := "b", status := some "approved", hasShop := some true }

/-- Technician with status "pending". -/
def ftPending : FreelanceTech := { uid := "c", status := some "pending" }

/-- Helper: under the hypotheses of claim C3 the `userData` local of the
repairs resolver stays null. -/
theorem fetchedUserData_none (store : Store) (r : AppointmentRec)
    (hfail : isFound (store.users r.userId) = false) :
    Repairs.fetchedUserData store r = none := by
  unfold Repairs.fetchedUserData
  cases h : store.users r.userId with
  | found d => rw [h] at hfail; simp [isFound] at hfail
  | absent => split <;> rfl
  | failed => split <;> rfl

/-- Helper: under the hypotheses of claim C3 the `userInfo` local of the
appointments resolver stays undefined. -/
theorem userLocal_none (store : Store) (r : AppointmentRec)
    (hui : r.userInfo = none) (hud : r.userDetails = none)
    (hfail : isFound (store.users r.userId) = false) :
    Appointments.userLocal store r = none := by
  have he : Appointments.embeddedUser r = none := by
    simp [Appointments.embeddedUser, hui, hud, Option.orElse]
  unfold Appointments.userLocal
  rw [he]
  cases h : store.users r.userId with
  | found d => rw [h] at hfail; simp [isFound] at hfail
  | absent => split <;> rfl
  | failed => split <;> rfl

/-- Helper: the `technicianData` local of the repairs resolver depends only
on the `technicians` component of the store. -/
theorem fetchedTechnicianData_congr (store store2 : Store) (r : AppointmentRec)
    (h : store2.technicians = store.technicians) :
    Repairs.fetchedTechnicianData store2 r = Repairs.fetchedTechnicianData store r := by
  unfold Repairs.fetchedTechnicianData
  rw [h]

/-- Helper: the soft-delete payload at the field "isDeleted". -/
theorem softDeleteFields_isDeleted (now : String) :
    softDeleteFields now "isDeleted" = some (JsValue.boolean true) := rfl

/-- Helper: the soft-delete payload at the field "deletedAt". -/
theorem softDeleteFields_deletedAt (now : String) :
    softDeleteFields now "deletedAt" = some (JsValue.str now) := rfl

/-- Helper: the soft-delete payload at the field "deletedBy". -/
theorem softDeleteFields_deletedBy (now : String) :
    softDeleteFields now "deletedBy" = some (JsValue.str "admin") := rfl

/-- C1: the claim asserts that after snapshots S1 then S2 have both been
delivered and resolved, the stored record set equals the resolved S2 and
never contains records of S1.  The repairs subscription callback stores
each resolution pass's result unconditionally, with no tag identifying the
snapshot a pass belongs to, so the stored set is that of whichever pass
completes last.  With S1 = [rA] delivered before S2 = []: completion in
delivery order stores the resolved S2, but when the resolution of the
stale S1 completes after that of S2 the stored set is the resolved S1 —
the record of S1 survives and the resolved S2 is clobbered. -/
theorem C1_staleResolutionClobbers :
    Repairs.runResolutionPasses storeEmpty [] [[rA], []] = []
    ∧ Repairs.runResolutionPasses storeEmpty [] [[], [rA]] = [rA]
    ∧ ([rA] : List AppointmentRec) ≠ [] := by decide

/-- C2: the claim asserts that a record already embedding a usable display
snapshot passes through the resolver with those display fields unchanged
and that resolution is idempotent.  In repairs.tsx the conditional
`appointment.userInfo || userData ? {...} : undefined` groups as
`(appointment.userInfo || userData) ? {...} : undefined`, and the branch
object is built from `userData` alone — null when the fetch was skipped —
so an embedded snapshot {alice, alice@example.com, 0917} is replaced by the
sentinels {Unknown, N/A, N/A}.  The appointments page's resolver, by
contrast, returns the same record unchanged, which is the evident intent. -/
theorem C2_embeddedSnapshotClobbered :
    (Repairs.fetchUserAndTechnicianDetails storeEmpty rAlice).userInfo
      = some { username := some "Unknown", email := some "N/A", phone := some "N/A" }
    ∧ Repairs.fetchUserAndTechnicianDetails storeEmpty rAlice ≠ rAlice
    ∧ Appointments.fetchUserAndTechnicianDetails storeEmpty rAlice = rAlice := by decide

/-- C3 (counterexample): the claim asserts that for a record whose
referenced user entity is absent from the store the resolver returns the
record with that entity's display fields set to the sentinels
{Unknown, N/A}.  On `rNoInfo` (no embedded snapshots, user and technician
both absent from the store) both resolvers instead leave `userInfo`
undefined — no sentinel-filled snapshot is embedded. -/
theorem C3_counterexample :
    (Repairs.fetchUserAndTechnicianDetails storeEmpty rNoInfo).userInfo = none
    ∧ (Appointments.fetchUserAndTechnicianDetails storeEmpty rNoInfo).userInfo = none
    ∧ (Repairs.fetchUserAndTechnicianDetails storeEmpty rNoInfo).userInfo
        ≠ some { username := some "Unknown", email := some "N/A", phone := some "N/A" } := by
  decide

/-- C3 (amended): for every record with no embedded user snapshot whose
referenced user entity is absent from the store or whose point read fails,
the resolver returns the record with the user display snapshot left
absent; the view's rendering fallbacks then display the sentinels
("Unknown" for the name, "N/A" for the email); the technician entity's
resolution is unaffected (it depends only on the `technicians` component
of the store); and no exception propagates (the embedded resolvers are
total functions). -/
theorem C3_sentinelAtRender (store store2 : Store) (r : AppointmentRec)
    (hui : r.userInfo = none) (hud : r.userDetails = none)
    (hfail : isFound (store.users r.userId) = false)
    (htech : store2.technicians = store.technicians) :
    (Repairs.fetchUserAndTechnicianDetails store r).userInfo = none
    ∧ (Repairs.fetchUserAndTechnicianDetails store r).userDetails = none
    ∧ Repairs.displayedUserName (Repairs.fetchUserAndTechnicianDetails store r) = "Unknown"
    ∧ Repairs.displayedUserEmail (Repairs.fetchUserAndTechnicianDetails store r) = "N/A"
    ∧ (Appointments.fetchUserAndTechnicianDetails store r).userInfo = none
    ∧ (Repairs.fetchUserAndTechnicianDetails store2 r).technicianInfo
        = (Repairs.fetchUserAndTechnicianDetails store r).technicianInfo
    ∧ (Repairs.fetchUserAndTechnicianDetails store2 r).technicianDetails
        = (Repairs.fetchUserAndTechnicianDetails store r).technicianDetails := by
  have hu := fetchedUserData_none store r hfail
  have hul := userLocal_none store r hui hud hfail
  have ht := fetchedTechnicianData_congr store store2 r htech
  have h1 : (Repairs.fetchUserAndTechnicianDetails store r).userInfo = none := by
    simp [Repairs.fetchUserAndTechnicianDetails, Repairs.mergeResolved, hu, hui]
  have h2 : (Repairs.fetchUserAndTechnicianDetails store r).userDetails = none := by
    simp [Repairs.fetchUserAndTechnicianDetails, Repairs.mergeResolved, hu, hud]
  refine ⟨h1, h2, ?_, ?_, ?_, ?_, ?_⟩
  · simp [Repairs.displayedUserName, h1, h2, orStr]
  · simp [Repairs.displayedUserEmail, h1, h2, orStr]
  · simp [Appointments.fetchUserAndTechnicianDetails, hul]
  · simp [Repairs.fetchUserAndTechnicianDetails, Repairs.mergeResolved, ht]
  · simp [Repairs.fetchUserAndTechnicianDetails, Repairs.mergeResolved, ht]

/-- Witness for C3_sentinelAtRender at the record `rNoInfo` and the stores
`storeEmpty` / `storeUsersFail`. -/
theorem C3_sentinelAtRender_witness :
    (rNoInfo.userInfo = none ∧ rNoInfo.userDetails = none
      ∧ isFound (storeEmpty.users rNoInfo.userId) = false
      ∧ storeUsersFail.technicians = storeEmpty.technicians)
    ∧ ((Repairs.fetchUserAndTechnicianDetails storeEmpty rNoInfo).userInfo = none
      ∧ (Repairs.fetchUserAndTechnicianDetails storeEmpty rNoInfo).userDetails = none
      ∧ Repairs.displayedUserName (Repairs.fetchUserAndTechnicianDetails storeEmpty rNoInfo)
          = "Unknown"
      ∧ Repairs.displayedUserEmail (Repairs.fetchUserAndTechnicianDetails storeEmpty rNoInfo)
          = "N/A"
      ∧ (Appointments.fetchUserAndTechnicianDetails storeEmpty rNoInfo).userInfo = none
      ∧ (Repairs.fetchUserAndTechnicianDetails storeUsersFail rNoInfo).technicianInfo
          = (Repairs.fetchUserAndTechnicianDetails storeEmpty rNoInfo).technicianInfo
      ∧ (Repairs.fetchUserAndTechnicianDetails storeUsersFail rNoInfo).technicianDetails
          = (Repairs.fetchUserAndTechnicianDetails storeEmpty rNoInfo).technicianDetails) :=
  ⟨⟨rfl, rfl, rfl, rfl⟩,
    C3_sentinelAtRender storeEmpty storeUsersFail rNoInfo rfl rfl rfl rfl⟩

/-- C4 (counterexample): the claim asserts that for every record and every
non-empty search term, a field absent on the record contributes no match.
In the appointments view the user and technician names default to
"Unknown" before matching, so the record `aBare` — every searchable field
absent — matches the non-empty term "unknown" and is kept by the filter,
while the repairs view (whose clauses short-circuit on absent fields)
excludes it. -/
theorem C4_counterexample :
    Appointments.filteredAppointments [aBare] "unknown" "all" = [aBare]
    ∧ Repairs.filteredRepairs [aBare] "unknown" "all" = [] := by decide

/-- C4 (amended): in the repairs view the matching rule holds as claimed —
a record on which every searchable display field is absent matches no
search term.  In the appointments view absent user/technician name fields
default to "Unknown" before the case-insensitive substring match, so such
a record matches the term "unknown"; absent device/issue fields default to
the empty string and contribute no match.  Case-insensitive substring
matching itself behaves as claimed: a record with `deviceType` absent and
`diagnosisData.brand = "iPhone"` matches the term "iphone" in both views. -/
theorem C4_amendedMatching (r : AppointmentRec) (term : String)
    (hui : r.userInfo = none) (hud : r.userDetails = none)
    (hti : r.technicianInfo = none) (htd : r.technicianDetails = none)
    (hdev : r.deviceType = none) (hdiag : r.diagnosisData = none)
    (hiss : r.issue = none) :
    Repairs.repairMatches term "all" r = false
    ∧ Appointments.appointmentMatches "unknown" "all" r = true
    ∧ Repairs.repairMatches "iphone" "all" rIphone = true
    ∧ Appointments.appointmentMatches "iphone" "all" rIphone = true := by
  refine ⟨?_, ?_, by decide, by decide⟩
  · simp [Repairs.repairMatches, Repairs.optIncludes, Repairs.guardIncludes,
      hui, hud, hti, htd, hdev, hdiag, hiss]
  · simp only [Appointments.appointmentMatches, hui, hud, hti, htd, hdev, hdiag, hiss]
    rw [show (("all" : String) == "all") = true from rfl, Bool.true_or, Bool.and_true]
    decide

/-- Witness for C4_amendedMatching at the record `aBare` and the term
"nomatch". -/
theorem C4_amendedMatching_witness :
    (aBare.userInfo = none ∧ aBare.userDetails = none ∧ aBare.technicianInfo = none
      ∧ aBare.technicianDetails = none ∧ aBare.deviceType = none
      ∧ aBare.diagnosisData = none ∧ aBare.issue = none)
    ∧ (Repairs.repairMatches "nomatch" "all" aBare = false
      ∧ Appointments.appointmentMatches "unknown" "all" aBare = true
      ∧ Repairs.repairMatches "iphone" "all" rIphone = true
      ∧ Appointments.appointmentMatches "iphone" "all" rIphone = true) :=
  ⟨⟨rfl, rfl, rfl, rfl, rfl, rfl, rfl⟩,
    C4_amendedMatching aBare "nomatch" rfl rfl rfl rfl rfl rfl rfl⟩

/-- C5: the filter/search view model builder is a pure function of
(records, term, status): applying it twice with the same term and status
equals applying it once, and the output is a sublist of the input — it
preserves the relative order of the input records.  This holds for the
repairs filter and for the appointments filter. -/
theorem C5_filterPureIdempotentOrdered (l : List AppointmentRec) (term status : String) :
    Repairs.filteredRepairs (Repairs.filteredRepairs l term status) term status
        = Repairs.filteredRepairs l term status
    ∧ List.Sublist (Repairs.filteredRepairs l term status) l
    ∧ Appointments.filteredAppointments
        (Appointments.filteredAppointments l term status) term status
        = Appointments.filteredAppointments l term status
    ∧ List.Sublist (Appointments.filteredAppointments l term status) l := by
  refine ⟨?_, List.filter_sublist l, ?_, List.filter_sublist l⟩
  · simp [Repairs.filteredRepairs, List.filter_filter]
  · simp [Appointments.filteredAppointments, List.filter_filter]

/-- C9: the freelance view model includes exactly the technician records
with `isDeleted` not true, status equal to "approved" after lower-casing,
and `hasShop` not true; of the three records {Approved+no-shop,
approved+has-shop, pending} only the first is included. -/
theorem C9_freelanceFilter (docs : List FreelanceTech) (t : FreelanceTech) :
    (t ∈ Freelance.freelanceTechs docs ↔
      t ∈ docs ∧ t.isDeleted ≠ some true ∧ Freelance.statusLower t = "approved"
        ∧ t.hasShop ≠ some true)
    ∧ Freelance.freelanceTechs [ftApprovedNoShop, ftApprovedShop, ftPending]
        = [ftApprovedNoShop] := by
  constructor
  · simp [Freelance.freelanceTechs, List.mem_filter, Freelance.isFreelanceTech, and_assoc]
  · decide

/-- C10: in the repairs view, with the empty search term and the status
filter "all", a record on which every searchable field is absent fails the
search predicate and is excluded from the view model — the filter is not
the identity function even with no active search or status constraint. -/
theorem C10_unmatchableRecordExcluded (rs : List AppointmentRec) (r : AppointmentRec)
    (hui : r.userInfo = none) (hud : r.userDetails = none)
    (hti : r.technicianInfo = none) (htd : r.technicianDetails = none)
    (hdev : r.deviceType = none) (hdiag : r.diagnosisData = none)
    (hiss : r.issue = none) :
    Repairs.repairMatches "" "all" r = false
    ∧ r ∉ Repairs.filteredRepairs rs "" "all" := by
  have hm : Repairs.repairMatches "" "all" r = false := by
    simp [Repairs.repairMatches, Repairs.optIncludes, Repairs.guardIncludes,
      hui, hud, hti, htd, hdev, hdiag, hiss]
  exact ⟨hm, by simp [Repairs.filteredRepairs, List.mem_filter, hm]⟩

/-- Witness for C10_unmatchableRecordExcluded at the record `aBare` inside
the one-element list [aBare]. -/
theorem C10_unmatchableRecordExcluded_witness :
    (aBare.userInfo = none ∧ aBare.userDetails = none ∧ aBare.technicianInfo = none
      ∧ aBare.technicianDetails = none ∧ aBare.deviceType = none
      ∧ aBare.diagnosisData = none ∧ aBare.issue = none)
    ∧ (Repairs.repairMatches "" "all" aBare = false
      ∧ aBare ∉ Repairs.filteredRepairs [aBare] "" "all") :=
  ⟨⟨rfl, rfl, rfl, rfl, rfl, rfl, rfl⟩,
    C10_unmatchableRecordExcluded [aBare] aBare rfl rfl rfl rfl rfl rfl rfl⟩

/-- C6: the confirmed, successful soft-delete issues a merge-write to the
selected technician's document setting exactly
{isDeleted: true, deletedAt: now, deletedBy: "admin"}: any other field of
that document reads unchanged, any other document is untouched, and the
selection is cleared on success. -/
theorem C6_softDeleteMergeWrite (uid now k i : String) (s : FreelanceViewState)
    (huid : uid ≠ "") (hk1 : k ≠ "isDeleted") (hk2 : k ≠ "deletedAt")
    (hk3 : k ≠ "deletedBy") (hi : i ≠ uid) :
    (Freelance.handleDelete true true uid now s).selected = none
    ∧ docField ((Freelance.handleDelete true true uid now s).techColl uid) "isDeleted"
        = some (JsValue.boolean true)
    ∧ docField ((Freelance.handleDelete true true uid now s).techColl uid) "deletedAt"
        = some (JsValue.str now)
    ∧ docField ((Freelance.handleDelete true true uid now s).techColl uid) "deletedBy"
        = some (JsValue.str "admin")
    ∧ docField ((Freelance.handleDelete true true uid now s).techColl uid) k
        = docField (s.techColl uid) k
    ∧ (Freelance.handleDelete true true uid now s).techColl i = s.techColl i := by
  have hh : Freelance.handleDelete true true uid now s
      = { s with techColl := mergeWrite s.techColl uid (softDeleteFields now)
               , selected := none } := by
    simp [Freelance.handleDelete, huid]
  have hnone : softDeleteFields now k = none := by
    simp [softDeleteFields, hk1, hk2, hk3]
  rw [hh]
  refine ⟨rfl, ?_, ?_, ?_, ?_, ?_⟩
  · simp [mergeWrite, docField, softDeleteFields_isDeleted]
  · simp [mergeWrite, docField, softDeleteFields_deletedAt]
  · simp [mergeWrite, docField, softDeleteFields_deletedBy]
  · simp [mergeWrite, docField, hnone]
  · simp [mergeWrite, hi]

/-- Witness for C6_softDeleteMergeWrite at uid "t1", timestamp "ts", frame
field "skills", other document "t2", and a one-document collection. -/
theorem C6_softDeleteMergeWrite_witness :
    (("t1" : String) ≠ "" ∧ ("skills" : String) ≠ "isDeleted"
      ∧ ("skills" : String) ≠ "deletedAt" ∧ ("skills" : String) ≠ "deletedBy"
      ∧ ("t2" : String) ≠ "t1")
    ∧ (let s0 : FreelanceViewState :=
        { techColl := fun j => if j = "t1"
            then some (fun f => if f = "skills" then some (JsValue.str "phones") else none)
            else none
        , selected := some "t1", errorShown := false }
       (Freelance.handleDelete true true "t1" "ts" s0).selected = none
       ∧ docField ((Freelance.handleDelete true true "t1" "ts" s0).techColl "t1") "isDeleted"
           = some (JsValue.boolean true)
       ∧ docField ((Freelance.handleDelete true true "t1" "ts" s0).techColl "t1") "deletedAt"
           = some (JsValue.str "ts")
       ∧ docField ((Freelance.handleDelete true true "t1" "ts" s0).techColl "t1") "deletedBy"
           = some (JsValue.str "admin")
       ∧ docField ((Freelance.handleDelete true true "t1" "ts" s0).techColl "t1") "skills"
           = docField (s0.techColl "t1") "skills"
       ∧ (Freelance.handleDelete true true "t1" "ts" s0).techColl "t2" = s0.techColl "t2") :=
  ⟨⟨by decide, by decide, by decide, by decide, by decide⟩,
    C6_softDeleteMergeWrite "t1" "ts" "skills" "t2" _
      (by decide) (by decide) (by decide) (by decide) (by decide)⟩

/-- C7: the delete action surface follows the claimed state machine: when
the confirmation gate is cancelled the whole state — collection, selection
and error surface — is unchanged (in particular no write is issued before
the user confirms); when the confirmed write fails, the collection is
unchanged (no partial state), the selection is preserved (the detail
surface stays open), and the non-fatal failure alert is shown. -/
theorem C7_actionStateMachine (wOk : Bool) (uid now : String) (s : FreelanceViewState)
    (huid : uid ≠ "") :
    Freelance.handleDelete false wOk uid now s = s
    ∧ (Freelance.handleDelete true false uid now s).techColl = s.techColl
    ∧ (Freelance.handleDelete true false uid now s).selected = s.selected
    ∧ (Freelance.handleDelete true false uid now s).errorShown = true := by
  have h1 : Freelance.handleDelete false wOk uid now s = s := by
    unfold Freelance.handleDelete
    split <;> rfl
  have h2 : Freelance.handleDelete true false uid now s = { s with errorShown := true } := by
    simp [Freelance.handleDelete, huid]
  exact ⟨h1, by rw [h2], by rw [h2], by rw [h2]⟩

/-- Witness for C7_actionStateMachine at uid "t1" and a concrete state. -/
theorem C7_actionStateMachine_witness :
    (("t1" : String) ≠ "")
    ∧ (let s0 : FreelanceViewState :=
        { techColl := fun _ => none, selected := some "t1", errorShown := false }
       Freelance.handleDelete false true "t1" "ts" s0 = s0
       ∧ (Freelance.handleDelete true false "t1" "ts" s0).techColl = s0.techColl
       ∧ (Freelance.handleDelete true false "t1" "ts" s0).selected = s0.selected
       ∧ (Freelance.handleDelete true false "t1" "ts" s0).errorShown = true) :=
  ⟨by decide, C7_actionStateMachine true "t1" "ts" _ (by decide)⟩

/-- C8 (counterexample): the claim asserts that on a subscription error
every view stops the spinner, surfaces an inline error with a retry
control, and renders an empty (non-stale) list.  In the repairs view the
error callback only clears the loading flag: starting from a state that
already holds the previously delivered record rA, the view still renders
the stale list [rA] and records no error; the freelance view likewise
records no error (it has no error state at all) and keeps its list. -/
theorem C8_counterexample :
    (Repairs.onSnapshotError { list := [rA], loading := false, error := none }).error = none
    ∧ Repairs.render (Repairs.onSnapshotError { list := [rA], loading := false, error := none })
        "" "all" = RenderedView.listView [rA]
    ∧ (Freelance.onSnapshotError
        { list := [ftApprovedNoShop], loading := false, error := none }).error = none
    ∧ Freelance.render (Freelance.onSnapshotError
        { list := [ftApprovedNoShop], loading := false, error := none })
        = RenderedView.listView [ftApprovedNoShop] := by decide

/-- C8 (amended): in the appointments view the claim holds — a
subscription error clears the loading flag, sets the inline error message
and the view renders the error state with its retry control instead of any
list.  In the repairs and freelance views the error callback only clears
the loading flag: the error field is untouched (freelance has no error
state at all) and the previously stored list remains. -/
theorem C8_amendedErrorHandling (s : ViewState AppointmentRec)
    (t : ViewState FreelanceTech) (term status : String) :
    (Appointments.onSnapshotError s).loading = false
    ∧ (Appointments.onSnapshotError s).error = some "Failed to connect to database"
    ∧ Appointments.render (Appointments.onSnapshotError s) term status
        = RenderedView.errorWithRetry "Failed to connect to database"
    ∧ (Repairs.onSnapshotError s).loading = false
    ∧ (Repairs.onSnapshotError s).error = s.error
    ∧ (Repairs.onSnapshotError s).list = s.list
    ∧ (Freelance.onSnapshotError t).loading = false
    ∧ (Freelance.onSnapshotError t).error = t.error
    ∧ (Freelance.onSnapshotError t).list = t.list := by
  refine ⟨rfl, rfl, ?_, rfl, rfl, rfl, rfl, rfl, rfl⟩
  simp [Appointments.render, Appointments.onSnapshotError]
